import Mathlib

/-!
Verification development for the EXAMEN_2 repository (report-generation and
order-notification pipelines, `Solucion/gestor_documentos.py` and
`Solucion/tienda_online/tienda_online.py`).

The Python code is shallowly embedded: classes become structures or
inductives, methods become Lean functions, Python dicts become association
lists over the keys the code reads, Python floats become rationals, and
Python exceptions become `Except` values.  The `datetime.now()` clock is an
external collaborator and is passed in as an explicit `now : String`
parameter wherever the source formats a timestamp.
-/

/-- Errors raised by the embedded Python code.  `valueError` models a raised
`ValueError(msg)`; `keyError` models the `KeyError` a dict subscript raises
when the key is absent. -/
inductive Err where
  | valueError (msg : String)
  | keyError (key : String)
deriving DecidableEq, Repr

/-- True exactly for the `ValueError` family: the deliberate, distinguishable
validation failures the code raises; `KeyError` is an unvalidated crash. -/
def Err.isValueError : Err → Bool
  | .valueError _ => true
  | .keyError _ => false

/-- Heterogeneous metadata values (strings, Python ints, Python floats). -/
inductive MVal where
  | s (v : String)
  | i (v : Int)
  | q (v : ℚ)
deriving DecidableEq, Repr

/-- Lookup in a Python dict modelled as an association list (`d.get(k)` /
`d[k]`): returns the value of the first matching key; keys are unique by
construction. -/
def dictGet {α : Type} (d : List (String × α)) (k : String) : Option α :=
  match d with
  | [] => none
  | p :: rest => if p.1 = k then some p.2 else dictGet rest k

/-- Assignment `d[k] = v` on a Python dict: overwrites the entry in place if
the key exists, otherwise appends it (Python dicts keep insertion order). -/
def dictSet {α : Type} (d : List (String × α)) (k : String) (v : α) :
    List (String × α) :=
  match d with
  | [] => [(k, v)]
  | p :: rest => if p.1 = k then (k, v) :: rest else p :: dictSet rest k v

/-- Python's `f"{x:.2f}"` on a number that the source computes exactly:
render with exactly two decimal digits (rounding to the nearest cent). -/
def formatFixed2 (x : ℚ) : String :=
  let c : Int := round (x * 100)
  let sign := if c < 0 then "-" else ""
  let a := c.natAbs
  let cents := a % 100
  let centsStr := if cents < 10 then "0" ++ toString cents else toString cents
  sign ++ toString (a / 100) ++ "." ++ centsStr

/-- The string `seg` occurs contiguously inside `s`. -/
def containsSegment (s seg : String) : Prop :=
  ∃ a b, s = a ++ seg ++ b

theorem string_append_assoc (a b c : String) : a ++ b ++ c = a ++ (b ++ c) := by
  cases a with | mk l =>
  cases b with | mk m =>
  cases c with | mk n =>
  exact congrArg String.mk (List.append_assoc l m n)

/-! ## Embedding of `Solucion/gestor_documentos.py` -/

/-- The line `"=" * 60 + "\n"`. -/
def eqLine : String := String.mk (List.replicate 60 '=') ++ "\n"

/-- The line `"-" * 60 + "\n"`. -/
def dashLine : String := String.mk (List.replicate 60 '-') ++ "\n"

/-- One element of a `data['sales']` list: `{'product': ..., 'amount': ...}`. -/
structure SalesItem where
  product : String
  amount : ℚ
deriving DecidableEq, Repr

/-- One element of a `data['items']` list:
`{'name': ..., 'category': ..., 'quantity': ...}`. -/
structure InvItem where
  name : String
  category : String
  quantity : Int
deriving DecidableEq, Repr

/-- The `data` dict handed to `ReportSystem.generate_report`, restricted to
the keys the generators read.  A `none` field models an absent key (so the
corresponding subscript raises `KeyError`); the dict `{}` is the payload with
every field `none`. -/
structure Payload where
  period : Option String := none
  sales : Option (List SalesItem) := none
  items : Option (List InvItem) := none
  income : Option ℚ := none
  expenses : Option ℚ := none
deriving DecidableEq, Repr

/-- Python truthiness of the payload dict: `{}` is falsy.  The dict is empty
exactly when every key the code reads is absent. -/
def Payload.isEmptyDict (p : Payload) : Bool :=
  p.period.isNone && p.sales.isNone && p.items.isNone &&
    p.income.isNone && p.expenses.isNone

/-- The empty dict `{}`. -/
def Payload.emptyDict : Payload := ⟨none, none, none, none, none⟩

/-- Subscript `data[k]`: the value when present, `KeyError` otherwise. -/
def subscript {α : Type} (v : Option α) (k : String) : Except Err α :=
  match v with
  | some x => .ok x
  | none => .error (.keyError k)

/-- The `Report` data-model class (the `timestamp` attribute is the injected
clock value). -/
structure Report where
  content : String
  type : String
  format : String
  metadata : List (String × MVal)
deriving DecidableEq, Repr

/-- The method `Report.get_metadata`: type/format/timestamp merged with the
report's own metadata dict. -/
def Report.get_metadata (r : Report) (now : String) : List (String × MVal) :=
  [("type", .s r.type), ("format", .s r.format), ("timestamp", .s now)]
    ++ r.metadata

namespace SalesReportGenerator

/-- The helper `SalesReportGenerator._calculate_totals`. -/
def calculate_totals (sales : List SalesItem) : ℚ :=
  (sales.map (fun item => item.amount)).sum

/-- The helper `SalesReportGenerator._format_sales_detail`. -/
def format_sales_detail (sales : List SalesItem) : String :=
  "Detalle de ventas:\n" ++ dashLine ++
    String.join (sales.map (fun sale =>
      "  • Producto: " ++ sale.product ++ " - $" ++ formatFixed2 sale.amount
        ++ "\n"))

/-- The method `SalesReportGenerator.generate_report`.  The content header is
built first; `data['sales']` is then read (twice) before `data['period']`, so
a missing `sales` key raises `KeyError('sales')` first. -/
def generate_report (now : String) (data : Payload) : Except Err Report := do
  let sales ← subscript data.sales "sales"
  let total_sales := calculate_totals sales
  let period ← subscript data.period "period"
  let content :=
    eqLine ++ "           REPORTE DE VENTAS\n" ++ eqLine ++
    ("Fecha de generación: " ++ now ++ "\n\n") ++
    ("Total de ventas: $" ++ formatFixed2 total_sales ++ "\n") ++
    ("Número de transacciones: " ++ toString sales.length ++ "\n") ++
    ("Periodo: " ++ period ++ "\n\n") ++
    format_sales_detail sales
  .ok ⟨content, "sales", "raw", [("period", .s period)]⟩

end SalesReportGenerator

namespace InventoryReportGenerator

/-- The helper `InventoryReportGenerator._calculate_totals`. -/
def calculate_totals (items : List InvItem) : Int :=
  (items.map (fun item => item.quantity)).sum

/-- One step of the `_group_by_category` loop: append `item` to the bucket of
`cat`, creating the bucket at the end if the key is new. -/
def addToCategory (cats : List (String × List InvItem)) (cat : String)
    (item : InvItem) : List (String × List InvItem) :=
  match cats with
  | [] => [(cat, [item])]
  | p :: rest =>
      if p.1 = cat then (p.1, p.2 ++ [item]) :: rest
      else p :: addToCategory rest cat item

/-- The helper `InventoryReportGenerator._group_by_category`. -/
def group_by_category (items : List InvItem) : List (String × List InvItem) :=
  items.foldl (fun cats item => addToCategory cats item.category item) []

/-- The method `InventoryReportGenerator.generate_report`. -/
def generate_report (now : String) (data : Payload) : Except Err Report := do
  let items ← subscript data.items "items"
  let total_items := calculate_totals items
  let categories := group_by_category items
  let content :=
    eqLine ++ "           REPORTE DE INVENTARIO\n" ++ eqLine ++
    ("Fecha de generación: " ++ now ++ "\n\n") ++
    ("Total de productos: " ++ toString total_items ++ "\n") ++
    ("Categorías: " ++ toString categories.length ++ "\n\n") ++
    "Inventario actual:\n" ++ dashLine ++
    String.join (items.map (fun item =>
      "  • " ++ item.name ++ " (" ++ item.category ++ "): "
        ++ toString item.quantity ++ " unidades\n"))
  .ok ⟨content, "inventory", "raw", [("total_items", .i total_items)]⟩

end InventoryReportGenerator

namespace FinancialReportGenerator

/-- The helper `FinancialReportGenerator._calculate_balance`. -/
def calculate_balance (income expenses : ℚ) : ℚ :=
  income - expenses

/-- The method `FinancialReportGenerator.generate_report`.  The call
`self._calculate_balance(data['income'], data['expenses'])` evaluates
`data['income']` first, so that key's `KeyError` wins. -/
def generate_report (now : String) (data : Payload) : Except Err Report := do
  let income ← subscript data.income "income"
  let expenses ← subscript data.expenses "expenses"
  let balance := calculate_balance income expenses
  let content :=
    eqLine ++ "           REPORTE FINANCIERO\n" ++ eqLine ++
    ("Fecha de generación: " ++ now ++ "\n\n") ++
    ("Ingresos: $" ++ formatFixed2 income ++ "\n") ++
    ("Gastos: $" ++ formatFixed2 expenses ++ "\n") ++
    ("Balance: $" ++ formatFixed2 balance ++ "\n")
  .ok ⟨content, "financial", "raw", [("balance", .q balance)]⟩

end FinancialReportGenerator

/-- The `IReportGenerator` implementations known to the system; `custom`
stands for an externally registered implementation with arbitrary behavior. -/
inductive Generator where
  | sales
  | inventory
  | financial
  | custom (behavior : String → Payload → Except Err Report)

/-- Polymorphic dispatch of `generator.generate_report(data)`. -/
def Generator.generate : Generator → String → Payload → Except Err Report
  | .sales, now, data => SalesReportGenerator.generate_report now data
  | .inventory, now, data => InventoryReportGenerator.generate_report now data
  | .financial, now, data => FinancialReportGenerator.generate_report now data
  | .custom behavior, now, data => behavior now data

/-- The `IFormatStrategy` implementations. -/
inductive Formatter where
  | pdf
  | excel
  | html
deriving DecidableEq, Repr

/-- The `format` method of each formatter strategy. -/
def Formatter.format : Formatter → String → String
  | .pdf, content => "[PDF FORMAT]\n" ++ content ++ "\n[END PDF]"
  | .excel, content => "[EXCEL FORMAT]\n" ++ content ++ "\n[END EXCEL]"
  | .html, content => "<html><body><pre>" ++ content ++ "</pre></body></html>"

/-- The `IDeliveryStrategy` implementations. -/
inductive Delivery where
  | email
  | download
  | cloud
deriving DecidableEq, Repr

/-- The `deliver` method of each delivery strategy: all three only print and
return `True`. -/
def Delivery.deliver : Delivery → String → List (String × MVal) → Bool
  | .email, _, _ => true
  | .download, _, _ => true
  | .cloud, _, _ => true

/-- The `ReportFactory` class. -/
structure ReportFactory where
  generators : List (String × Generator)

/-- The factory as built by `ReportFactory.__init__`. -/
def ReportFactory.new : ReportFactory :=
  ⟨[("sales", .sales), ("inventory", .inventory), ("financial", .financial)]⟩

/-- The method `ReportFactory.create_generator`. -/
def ReportFactory.create_generator (f : ReportFactory) (report_type : String) :
    Except Err Generator :=
  match dictGet f.generators report_type with
  | some generator => .ok generator
  | none => .error (.valueError ("Tipo de reporte no soportado: " ++ report_type))

/-- The method `ReportFactory.register_generator`. -/
def ReportFactory.register_generator (f : ReportFactory) (report_type : String)
    (generator : Generator) : ReportFactory :=
  ⟨dictSet f.generators report_type generator⟩

/-- The `ReportBuilder` class (fields are `None` until the setter runs). -/
structure ReportBuilder where
  generatorC : Option Generator := none
  formatterC : Option Formatter := none
  deliveryC : Option Delivery := none
  dataC : Option Payload := none

/-- The method `ReportBuilder.build`.  `not all([...])` raises when any
component is `None` or the data dict is empty (falsy).  The delivery result
boolean is returned alongside the report so it can be observed (the source
computes and then discards it). -/
def ReportBuilder.build (b : ReportBuilder) (now : String) :
    Except Err (Report × Bool) :=
  match b.generatorC, b.formatterC, b.deliveryC, b.dataC with
  | some generator, some formatter, some delivery, some data =>
    if data.isEmptyDict then
      .error (.valueError "Faltan componentes para construir el reporte")
    else do
      let report ← generator.generate now data
      let formatted_content := formatter.format report.content
      let delivered := delivery.deliver formatted_content (report.get_metadata now)
      .ok ({ report with content := formatted_content }, delivered)
  | _, _, _, _ =>
      .error (.valueError "Faltan componentes para construir el reporte")

/-- One entry of `ReportSystem.report_history` (timestamp is the clock). -/
structure HistoryEntry where
  type : String
  format : String
  metadata : List (String × MVal)
deriving DecidableEq, Repr

/-- The dict `ReportSystem._format_strategies`. -/
def format_strategies : List (String × Formatter) :=
  [("pdf", .pdf), ("excel", .excel), ("html", .html)]

/-- The dict `ReportSystem._delivery_strategies`. -/
def delivery_strategies : List (String × Delivery) :=
  [("email", .email), ("download", .download), ("cloud", .cloud)]

/-- The `ReportSystem` class. -/
structure ReportSystem where
  factory : ReportFactory
  builder : ReportBuilder
  report_history : List HistoryEntry

/-- The system as built by `ReportSystem.__init__`. -/
def ReportSystem.new : ReportSystem :=
  ⟨ReportFactory.new, ⟨none, none, none, none⟩, []⟩

/-- The method `ReportSystem.generate_report`, threading the mutable system
state.  Component lookups happen in source order (generator, then formatter,
then delivery); on any raised error the returned state shows exactly which
mutations had happened (none before the builder is configured). -/
def ReportSystem.generate_report (sys : ReportSystem) (now : String)
    (report_type : String) (data : Payload) (output_format : String)
    (delivery_method : String) :
    Except Err (Report × Bool) × ReportSystem :=
  match sys.factory.create_generator report_type with
  | .error e => (.error e, sys)
  | .ok generator =>
    match dictGet format_strategies output_format with
    | none =>
        (.error (.valueError ("Formato no soportado: " ++ output_format)), sys)
    | some formatter =>
      match dictGet delivery_strategies delivery_method with
      | none =>
          (.error (.valueError
            ("Método de entrega no soportado: " ++ delivery_method)), sys)
      | some delivery =>
        let b : ReportBuilder :=
          ⟨some generator, some formatter, some delivery, some data⟩
        match b.build now with
        | .error e => (.error e, { sys with builder := b })
        | .ok (report, delivered) =>
            (.ok (report, delivered),
             { sys with
                builder := b
                report_history := sys.report_history ++
                  [⟨report.type, report.format, report.metadata⟩] })

/-- Decidable character-list prefix test (helper for `strStartsWith`). -/
def charsPrefix : List Char → List Char → Bool
  | [], _ => true
  | _ :: _, [] => false
  | c :: cs, d :: ds => c = d && charsPrefix cs ds

/-- Embedding of Python's `s.startswith(pre)`. -/
def strStartsWith (s pre : String) : Bool :=
  charsPrefix pre.data s.data

/-! ## Embedding of `Solucion/tienda_online/tienda_online.py` -/

/-- The `Customer` value object. -/
structure Customer where
  name : String
  email : String
  phone : String
  device_id : String
  notification_preferences : List String
deriving DecidableEq, Repr

/-- The method `Customer.get_contact_info` (`contact_map.get(channel)`). -/
def Customer.get_contact_info (c : Customer) (channel : String) :
    Option String :=
  if channel = "email" then some c.email
  else if channel = "sms" then some c.phone
  else if channel = "push" then some c.device_id
  else none

/-- The `Order` value object (timestamp is the external clock). -/
structure Order where
  order_id : String
  customer : Customer
  total : ℚ
deriving DecidableEq, Repr

/-- The `Notification` entity.  `error` is the attribute `mark_as_failed`
sets; the notification id and timestamp come from the external clock and are
omitted. -/
structure Notification where
  type : String
  recipient : String
  message : String
  order_id : String
  status : String
  error : Option String
deriving DecidableEq, Repr

/-- The method `Notification.mark_as_sent`. -/
def Notification.mark_as_sent (n : Notification) : Notification :=
  { n with status := "sent" }

/-- The method `Notification.mark_as_failed`. -/
def Notification.mark_as_failed (n : Notification) (e : String) : Notification :=
  { n with status := "failed", error := some e }

namespace EmailNotifier

/-- The method `EmailNotifier.send`: nothing in the try block can raise, so
it always marks the notification sent and returns `True`. -/
def send (n : Notification) : Bool × Notification :=
  (true, n.mark_as_sent)

end EmailNotifier

namespace SMSNotifier

/-- The helper `SMSNotifier._validate_phone`: Python's
`bool(phone and len(phone) > 10)` (an empty string is falsy). -/
def validate_phone (phone : String) : Bool :=
  if phone = "" then false else decide (10 < phone.length)

/-- The method `SMSNotifier.send`: the raised `ValueError` is caught by the
method's own `except`, which marks the notification failed and returns
`False`. -/
def send (n : Notification) : Bool × Notification :=
  if validate_phone n.recipient then (true, n.mark_as_sent)
  else (false, n.mark_as_failed "Número de teléfono inválido")

end SMSNotifier

namespace PushNotifier

/-- The helper `PushNotifier._validate_device`: Python's
`bool(device_id and device_id.startswith('DEVICE-'))`;
`strStartsWith` embeds `str.startswith`. -/
def validate_device (device_id : String) : Bool :=
  if device_id = "" then false else strStartsWith device_id "DEVICE-"

/-- The method `PushNotifier.send`. -/
def send (n : Notification) : Bool × Notification :=
  if validate_device n.recipient then (true, n.mark_as_sent)
  else (false, n.mark_as_failed "Device ID inválido")

end PushNotifier

/-- The `INotificationStrategy` implementations; `custom` stands for an
externally registered notifier with arbitrary behavior. -/
inductive Notifier where
  | email
  | sms
  | push
  | custom (behavior : Notification → Bool × Notification)

/-- Polymorphic dispatch of `notifier.send(notification)`. -/
def Notifier.send : Notifier → Notification → Bool × Notification
  | .email, n => EmailNotifier.send n
  | .sms, n => SMSNotifier.send n
  | .push, n => PushNotifier.send n
  | .custom behavior, n => behavior n

/-- The `NotificationFactory` class. -/
structure NotificationFactory where
  notifiers : List (String × Notifier)

/-- The factory as built by `NotificationFactory.__init__`. -/
def NotificationFactory.new : NotificationFactory :=
  ⟨[("email", .email), ("sms", .sms), ("push", .push)]⟩

/-- The method `NotificationFactory.create_notifier`. -/
def NotificationFactory.create_notifier (f : NotificationFactory)
    (notification_type : String) : Except Err Notifier :=
  match dictGet f.notifiers notification_type with
  | some notifier => .ok notifier
  | none => .error (.valueError
      ("Tipo de notificación no soportado: " ++ notification_type))

/-- The method `NotificationFactory.register_notifier`. -/
def NotificationFactory.register_notifier (f : NotificationFactory)
    (notification_type : String) (notifier : Notifier) : NotificationFactory :=
  ⟨dictSet f.notifiers notification_type notifier⟩

/-- The `MessageBuilder` class (fields are `None` until the setter runs). -/
structure MessageBuilder where
  orderC : Option Order := none
  customerC : Option Customer := none
  channelC : Option String := none

namespace MessageBuilder

/-- The helper `MessageBuilder._apply_template`: the templates dict keyed by
channel, with default `"Pedido confirmado"`. -/
def apply_template (o : Order) (c : Customer) (channel : String) : String :=
  if channel = "email" then
    "Estimado " ++ c.name ++ ", su pedido #" ++ o.order_id ++ " por $"
      ++ formatFixed2 o.total ++ " ha sido confirmado. Gracias por su compra."
  else if channel = "sms" then
    "Pedido #" ++ o.order_id ++ " confirmado. Total: $"
      ++ formatFixed2 o.total ++ ". Gracias!"
  else if channel = "push" then
    "¡Pedido confirmado! #" ++ o.order_id ++ " - $" ++ formatFixed2 o.total
  else "Pedido confirmado"

/-- The method `MessageBuilder.build`: `not all([...])` raises when any
component is `None` or the channel string is empty (falsy); `_personalize`
is the identity. -/
def build (b : MessageBuilder) : Except Err String :=
  match b.orderC, b.customerC, b.channelC with
  | some o, some c, some channel =>
    if channel = "" then
      .error (.valueError "Faltan datos para construir el mensaje")
    else .ok (apply_template o c channel)
  | _, _, _ => .error (.valueError "Faltan datos para construir el mensaje")

end MessageBuilder

/-- The `NotificationManager` class: its factory and the repository's
notification list (`NotificationRepository._storage`).  The shared
`MessageBuilder` has all three fields overwritten on every use, so its
residual state is not tracked. -/
structure NotificationManager where
  factory : NotificationFactory
  repository : List Notification

/-- The manager as built by `NotificationManager.__init__`. -/
def NotificationManager.new : NotificationManager :=
  ⟨NotificationFactory.new, []⟩

/-- The method `NotificationManager._create_notification`: builds the
message first, then looks up the recipient, raising when the channel has no
contact information. -/
def NotificationManager.create_notification (order : Order) (channel : String) :
    Except Err Notification :=
  match MessageBuilder.build ⟨some order, some order.customer, some channel⟩ with
  | .error e => .error e
  | .ok message =>
    match order.customer.get_contact_info channel with
    | none => .error (.valueError
        ("No se encontró información de contacto para el canal " ++ channel))
    | some recipient =>
        .ok ⟨channel, recipient, message, order.order_id, "pending", none⟩

/-- The body of one iteration of the loop in
`NotificationManager.send_notifications`: the returned `Option Err` is the
exception the surrounding `except` caught and printed (a failed send is not
an exception — the notification is saved with status `failed`). -/
def NotificationManager.processChannel (m : NotificationManager) (order : Order)
    (channel : String) : NotificationManager × Option Err :=
  match NotificationManager.create_notification order channel with
  | .error e => (m, some e)
  | .ok notification =>
    match m.factory.create_notifier channel with
    | .error e => (m, some e)
    | .ok notifier =>
      let sent := notifier.send notification
      ({ m with repository := m.repository ++ [sent.2] }, none)

/-- The method `NotificationManager.send_notifications`: iterates the channel
list, catching each channel's exception so later channels still run; returns
the final state and the caught exception (if any) per channel, in order. -/
def NotificationManager.send_notifications (m : NotificationManager)
    (order : Order) (channels : List String) :
    NotificationManager × List (Option Err) :=
  channels.foldl
    (fun acc channel =>
      let step := acc.1.processChannel order channel
      (step.1, acc.2 ++ [step.2]))
    (m, [])

/-! ## Helper lemmas -/

theorem dictGet_dictSet {α : Type} (d : List (String × α)) (k : String)
    (v : α) : dictGet (dictSet d k v) k = some v := by
  induction d with
  | nil => simp [dictGet, dictSet]
  | cons p rest ih =>
    by_cases h : p.1 = k
    · simp [dictGet, dictSet, h]
    · simp [dictGet, dictSet, h, ih]

theorem validate_phone_eq (phone : String) :
    SMSNotifier.validate_phone phone = decide (10 < phone.length) := by
  by_cases h : phone = ""
  · subst h; rfl
  · simp [SMSNotifier.validate_phone, h]

theorem validate_device_eq (device_id : String) :
    PushNotifier.validate_device device_id =
      strStartsWith device_id "DEVICE-" := by
  by_cases h : device_id = ""
  · subst h; rfl
  · simp [PushNotifier.validate_device, h]

theorem addToCategory_keys (cats : List (String × List InvItem)) (cat : String)
    (item : InvItem) :
    (InventoryReportGenerator.addToCategory cats cat item).map Prod.fst =
      if cat ∈ cats.map Prod.fst then cats.map Prod.fst
      else cats.map Prod.fst ++ [cat] := by
  induction cats with
  | nil => simp [InventoryReportGenerator.addToCategory]
  | cons p rest ih =>
    by_cases h : p.1 = cat
    · simp [InventoryReportGenerator.addToCategory, h]
    · have h' : ¬ cat = p.1 := fun e => h e.symm
      by_cases hm : cat ∈ rest.map Prod.fst
      · simp [InventoryReportGenerator.addToCategory, h, ih, hm, h']
      · simp [InventoryReportGenerator.addToCategory, h, ih, hm, h']

theorem groupFold_keys (items : List InvItem) :
    ∀ acc : List (String × List InvItem),
      (((items.foldl
          (fun cats item =>
            InventoryReportGenerator.addToCategory cats item.category item)
          acc).map Prod.fst).toFinset
        = (acc.map Prod.fst).toFinset ∪ (items.map InvItem.category).toFinset)
      ∧ ((acc.map Prod.fst).Nodup →
          ((items.foldl
            (fun cats item =>
              InventoryReportGenerator.addToCategory cats item.category item)
            acc).map Prod.fst).Nodup) := by
  induction items with
  | nil => intro acc; simp
  | cons item rest ih =>
    intro acc
    have hkeys := addToCategory_keys acc item.category item
    constructor
    · have h1 :=
        (ih (InventoryReportGenerator.addToCategory acc item.category item)).1
      rw [List.foldl_cons, h1, hkeys]
      by_cases hm : item.category ∈ acc.map Prod.fst
      · have hmf : item.category ∈ (acc.map Prod.fst).toFinset :=
          List.mem_toFinset.mpr hm
        simp only [hm, if_true]
        ext x
        simp only [Finset.mem_union, List.mem_toFinset, List.map_cons,
          List.toFinset_cons, Finset.mem_insert]
        constructor
        · intro hx; tauto
        · rintro (hx | hx | hx)
          · left; exact hx
          · left; subst hx; exact hm
          · right; exact hx
      · simp only [hm, if_false]
        ext x
        simp only [Finset.mem_union, List.mem_toFinset, List.mem_append,
          List.map_cons, List.toFinset_cons, Finset.mem_insert,
          List.mem_singleton]
        tauto
    · intro hnd
      have h2 :=
        (ih (InventoryReportGenerator.addToCategory acc item.category item)).2
      rw [List.foldl_cons]
      apply h2
      rw [hkeys]
      by_cases hm : item.category ∈ acc.map Prod.fst
      · simpa [hm] using hnd
      · simp only [hm, if_false]
        rw [List.nodup_append]
        exact ⟨hnd, List.nodup_singleton _,
          by simpa [List.disjoint_singleton] using hm⟩

theorem group_by_category_length (items : List InvItem) :
    (InventoryReportGenerator.group_by_category items).length =
      (items.map InvItem.category).toFinset.card := by
  have h := groupFold_keys items []
  have hnd := h.2 (by simp)
  have hfs := h.1
  simp only [List.map_nil, List.toFinset_nil, Finset.empty_union] at hfs
  calc (InventoryReportGenerator.group_by_category items).length
      = ((InventoryReportGenerator.group_by_category items).map
          Prod.fst).length := (List.length_map _ _).symm
    _ = ((InventoryReportGenerator.group_by_category items).map
          Prod.fst).toFinset.card := (List.toFinset_card_of_nodup hnd).symm
    _ = (items.map InvItem.category).toFinset.card := by
          rw [InventoryReportGenerator.group_by_category]; rw [hfs]

/-! ## Claim theorems -/

theorem formatFixed2_val_1245_48 : formatFixed2 (124548 / 100) = "1245.48" := by
  rw [formatFixed2]; norm_num; rfl

/-- The four-item sales payload of the repository's demonstration code
(`if __name__ == "__main__"` block): amounts sum to 1245.48. -/
def demoSalesItems : List SalesItem :=
  [⟨"Laptop HP", 899.99⟩, ⟨"Mouse Logitech", 25.50⟩,
   ⟨"Teclado Mecánico", 120.00⟩, ⟨"Monitor LG 24\"", 199.99⟩]

/-- The demonstration sales payload `sales_data`. -/
def demoSalesPayload : Payload :=
  ⟨some "Enero 2024", some demoSalesItems, none, none, none⟩

/-- Claim C1, counterexample: running the scenario of the claim (the
demonstration sales payload, format `pdf`, delivery `email`, on a fresh
system) appends a history entry whose `format` field is `"raw"`, not
`"pdf"`: the generators construct every `Report` with format `'raw'` and
`ReportBuilder.build` updates only the content, never the format, before
`_log_report` copies `report.format` into the history entry. -/
theorem claim_C1_counterexample :
    ((ReportSystem.new.generate_report "2024-01-31 00:00:00" "sales"
        demoSalesPayload "pdf" "email").2.report_history.map
          HistoryEntry.format = ["raw"])
    ∧ "raw" ≠ "pdf" := by
  constructor
  · rfl
  · decide

/-- Claim C1 (amended): for a `generate_report` call with `report_type =
'sales'`, a payload whose `sales` list has 4 items whose amounts sum to
1245.48, `output_format = 'pdf'` and `delivery_method = 'email'`: the
generated content reports total 1245.48, the final artifact is wrapped in
`[PDF FORMAT]` / `[END PDF]` markers, the delivery returns success (true),
and exactly one history entry is appended whose kind is `'sales'` — but
whose `format` field is `'raw'` (the tag the generator stored; the requested
output format is never copied into the report or its history entry). -/
theorem claim_C1_amended (sys : ReportSystem) (now p : String)
    (items : List SalesItem)
    (hgen : sys.factory.create_generator "sales" = .ok .sales)
    (hlen : items.length = 4)
    (hsum : (items.map (fun item => item.amount)).sum = 124548 / 100) :
    ∃ rep sys',
      sys.generate_report now "sales" ⟨some p, some items, none, none, none⟩
          "pdf" "email" = (.ok (rep, true), sys')
      ∧ (∃ c, rep.content = "[PDF FORMAT]\n" ++ c ++ "\n[END PDF]"
          ∧ containsSegment c "Total de ventas: $1245.48\n")
      ∧ sys'.report_history = sys.report_history ++
          [⟨"sales", "raw", [("period", MVal.s p)]⟩] := by
  have htot : SalesReportGenerator.calculate_totals items = 124548 / 100 := by
    rw [SalesReportGenerator.calculate_totals, hsum]
  have hfmt : formatFixed2 (SalesReportGenerator.calculate_totals items)
      = "1245.48" := by rw [htot]; exact formatFixed2_val_1245_48
  have hmerge : "Total de ventas: $" ++ ("1245.48" ++ "\n")
      = "Total de ventas: $1245.48\n" := rfl
  have hrun : sys.generate_report now "sales"
      ⟨some p, some items, none, none, none⟩ "pdf" "email"
      = (.ok (⟨"[PDF FORMAT]\n" ++
          (eqLine ++ "           REPORTE DE VENTAS\n" ++ eqLine ++
            ("Fecha de generación: " ++ now ++ "\n\n") ++
            ("Total de ventas: $" ++
              formatFixed2 (SalesReportGenerator.calculate_totals items)
              ++ "\n") ++
            ("Número de transacciones: " ++ toString items.length ++ "\n") ++
            ("Periodo: " ++ p ++ "\n\n") ++
            SalesReportGenerator.format_sales_detail items) ++ "\n[END PDF]",
          "sales", "raw", [("period", .s p)]⟩, true),
         { sys with
            builder := ⟨some .sales, some .pdf, some .email,
              some ⟨some p, some items, none, none, none⟩⟩
            report_history := sys.report_history ++
              [⟨"sales", "raw", [("period", .s p)]⟩] }) := by
    unfold ReportSystem.generate_report
    rw [hgen]
    rfl
  refine ⟨_, _, hrun, ⟨_, rfl, ?_⟩, rfl⟩
  refine ⟨eqLine ++ "           REPORTE DE VENTAS\n" ++ eqLine ++
      ("Fecha de generación: " ++ now ++ "\n\n"),
    ("Número de transacciones: " ++ toString items.length ++ "\n") ++
      ("Periodo: " ++ p ++ "\n\n") ++
      SalesReportGenerator.format_sales_detail items, ?_⟩
  rw [hfmt, ← hmerge]
  simp only [string_append_assoc]

/-- Witness for claim C1 (amended), at the repository's demonstration
payload on a freshly constructed system. -/
theorem claim_C1_witness :
    ReportSystem.new.factory.create_generator "sales" = .ok .sales
    ∧ demoSalesItems.length = 4
    ∧ (demoSalesItems.map (fun item => item.amount)).sum = 124548 / 100
    ∧ (∃ rep sys',
        ReportSystem.new.generate_report "2024-01-31 00:00:00" "sales"
            ⟨some "Enero 2024", some demoSalesItems, none, none, none⟩
            "pdf" "email" = (.ok (rep, true), sys')
        ∧ (∃ c, rep.content = "[PDF FORMAT]\n" ++ c ++ "\n[END PDF]"
            ∧ containsSegment c "Total de ventas: $1245.48\n")
        ∧ sys'.report_history = ReportSystem.new.report_history ++
            [⟨"sales", "raw", [("period", MVal.s "Enero 2024")]⟩]) :=
  ⟨rfl, rfl, by norm_num [demoSalesItems],
   claim_C1_amended ReportSystem.new "2024-01-31 00:00:00" "Enero 2024"
     demoSalesItems rfl rfl (by norm_num [demoSalesItems])⟩

/-- The customer of the repository's demonstration order `ORD-001`. -/
def demoCustomer : Customer :=
  ⟨"Ana García", "ana.garcia@email.com", "+34-600-123-456", "DEVICE-ABC-123",
   ["email", "sms", "push"]⟩

/-- The repository's demonstration order `ORD-001`. -/
def demoOrder : Order := ⟨"ORD-001", demoCustomer, 150.50⟩

/-- Claim C2, counterexample: for the unregistered channel `'whatsapp'`,
`NotificationManager` does not fail with the factory's unknown-tag error: the
failure raised (and caught) is the missing-contact-info `ValueError` from
`_create_notification`, which runs before the factory lookup — and the
message content has already been built from the fallback template
`'Pedido confirmado'` at that point. -/
theorem claim_C2_counterexample :
    ((NotificationManager.new.processChannel demoOrder "whatsapp").2
      = some (.valueError
          "No se encontró información de contacto para el canal whatsapp"))
    ∧ (Err.valueError
         "No se encontró información de contacto para el canal whatsapp"
        ≠ Err.valueError "Tipo de notificación no soportado: whatsapp")
    ∧ (MessageBuilder.build
        ⟨some demoOrder, some demoOrder.customer, some "whatsapp"⟩
        = .ok "Pedido confirmado") := by
  exact ⟨rfl, by decide, rfl⟩

/-- Claim C2 (amended): in `ReportSystem.generate_report`, an unregistered
report-type, format or delivery tag fails with the corresponding unknown-tag
`ValueError` and leaves the whole system state (in particular the history
store) exactly unchanged, producing no content, artifact or history entry.
In `NotificationManager`, a channel whose tag is unregistered in the factory
likewise appends nothing — the repository is exactly unchanged and an error
is reported — but for a channel outside `email`/`sms`/`push` the surfaced
error is the missing-contact-info `ValueError` raised in
`_create_notification` before the factory is ever consulted, not the
factory's unknown-tag error (and the message content is built first). -/
theorem claim_C2_amended :
    (∀ (sys : ReportSystem) (now rt : String) (data : Payload) (of dm : String),
      dictGet sys.factory.generators rt = none →
        sys.generate_report now rt data of dm =
          (.error (.valueError ("Tipo de reporte no soportado: " ++ rt)), sys))
    ∧ (∀ (sys : ReportSystem) (now rt : String) (data : Payload)
        (of dm : String) (g : Generator),
        dictGet sys.factory.generators rt = some g →
        dictGet format_strategies of = none →
          sys.generate_report now rt data of dm =
            (.error (.valueError ("Formato no soportado: " ++ of)), sys))
    ∧ (∀ (sys : ReportSystem) (now rt : String) (data : Payload)
        (of dm : String) (g : Generator) (f : Formatter),
        dictGet sys.factory.generators rt = some g →
        dictGet format_strategies of = some f →
        dictGet delivery_strategies dm = none →
          sys.generate_report now rt data of dm =
            (.error (.valueError
              ("Método de entrega no soportado: " ++ dm)), sys))
    ∧ (∀ (m : NotificationManager) (order : Order) (channel : String),
        dictGet m.factory.notifiers channel = none →
          (m.processChannel order channel).1 = m
          ∧ ∃ e, (m.processChannel order channel).2 = some e) := by
  refine ⟨?_, ?_, ?_, ?_⟩
  · intro sys now rt data of dm h
    unfold ReportSystem.generate_report ReportFactory.create_generator
    rw [h]
  · intro sys now rt data of dm g h1 h2
    unfold ReportSystem.generate_report ReportFactory.create_generator
    rw [h1, h2]
  · intro sys now rt data of dm g f h1 h2 h3
    unfold ReportSystem.generate_report ReportFactory.create_generator
    rw [h1, h2, h3]
  · intro m order channel h
    rcases hc : NotificationManager.create_notification order channel with e | n
    · unfold NotificationManager.processChannel
      rw [hc]
      exact ⟨rfl, e, rfl⟩
    · unfold NotificationManager.processChannel
        NotificationFactory.create_notifier
      rw [hc, h]
      exact ⟨rfl, _, rfl⟩

/-- Witness for claim C2 (amended), at the unregistered tags `'custom'`
(report type), `'docx'` (format), `'fax'` (delivery) and `'whatsapp'`
(notification channel). -/
theorem claim_C2_witness :
    (ReportSystem.new.generate_report "T" "custom" Payload.emptyDict
        "pdf" "email" =
      (.error (.valueError "Tipo de reporte no soportado: custom"),
       ReportSystem.new))
    ∧ (ReportSystem.new.generate_report "T" "sales" Payload.emptyDict
        "docx" "email" =
      (.error (.valueError "Formato no soportado: docx"), ReportSystem.new))
    ∧ (ReportSystem.new.generate_report "T" "sales" Payload.emptyDict
        "pdf" "fax" =
      (.error (.valueError "Método de entrega no soportado: fax"),
       ReportSystem.new))
    ∧ ((NotificationManager.new.processChannel demoOrder "whatsapp").1
        = NotificationManager.new
      ∧ ∃ e, (NotificationManager.new.processChannel demoOrder "whatsapp").2
          = some e) := by
  refine ⟨?_, ?_, ?_, ?_⟩
  · have h := claim_C2_amended.1 ReportSystem.new "T" "custom"
      Payload.emptyDict "pdf" "email" rfl
    simpa using h
  · have h := claim_C2_amended.2.1 ReportSystem.new "T" "sales"
      Payload.emptyDict "docx" "email" Generator.sales rfl rfl
    simpa using h
  · have h := claim_C2_amended.2.2.1 ReportSystem.new "T" "sales"
      Payload.emptyDict "pdf" "fax" Generator.sales Formatter.pdf rfl rfl rfl
    simpa using h
  · exact claim_C2_amended.2.2.2 NotificationManager.new demoOrder
      "whatsapp" rfl

/-- Claim C3, evaluation at the failing inputs: when a required field is
absent the generators do not surface a distinguishable `InvalidPayload`
validation result — the dict subscript raises a bare `KeyError` naming the
missing key (`data['sales']`, `data['items']`, `data['income']`,
`data['expenses']` are read with no prior validation), which is not of the
`ValueError` family the code uses for its deliberate validation failures. -/
theorem claim_C3_eval :
    (SalesReportGenerator.generate_report "T"
        ⟨some "Enero 2024", none, none, none, none⟩
      = .error (.keyError "sales"))
    ∧ (InventoryReportGenerator.generate_report "T" Payload.emptyDict
      = .error (.keyError "items"))
    ∧ (FinancialReportGenerator.generate_report "T"
        ⟨none, none, none, none, some 32000⟩
      = .error (.keyError "income"))
    ∧ (FinancialReportGenerator.generate_report "T"
        ⟨none, none, none, some 50000, none⟩
      = .error (.keyError "expenses"))
    ∧ (Err.keyError "sales").isValueError = false := by
  exact ⟨rfl, rfl, rfl, rfl, rfl⟩

/-- Claim C4: processing channels `['email', 'sms', 'push']` for an order
whose customer has a phone of length ≤ 10, a nonempty email, and a device id
with the `DEVICE-` prefix appends exactly three notifications to the
repository, in the channel-list order: email `sent`, sms `failed` (with the
invalid-phone error), push `sent` — the sms failure does not stop the later
channels. -/
theorem claim_C4 (reg : List Notification) (order : Order)
    (hphone : order.customer.phone.length ≤ 10)
    (hemail : order.customer.email ≠ "")
    (hdevice : strStartsWith order.customer.device_id "DEVICE-" = true) :
    ((NotificationManager.mk NotificationFactory.new reg).send_notifications
        order ["email", "sms", "push"]).1.repository =
      reg ++
        [⟨"email", order.customer.email,
           MessageBuilder.apply_template order order.customer "email",
           order.order_id, "sent", none⟩,
         ⟨"sms", order.customer.phone,
           MessageBuilder.apply_template order order.customer "sms",
           order.order_id, "failed", some "Número de teléfono inválido"⟩,
         ⟨"push", order.customer.device_id,
           MessageBuilder.apply_template order order.customer "push",
           order.order_id, "sent", none⟩] := by
  have hsms : SMSNotifier.validate_phone order.customer.phone = false := by
    rw [validate_phone_eq]; exact decide_eq_false (by omega)
  have hpush : PushNotifier.validate_device order.customer.device_id = true := by
    rw [validate_device_eq]; exact hdevice
  simp [NotificationManager.send_notifications,
    NotificationManager.processChannel,
    NotificationManager.create_notification, MessageBuilder.build,
    Customer.get_contact_info, NotificationFactory.create_notifier,
    NotificationFactory.new, dictGet, Notifier.send, EmailNotifier.send,
    SMSNotifier.send, PushNotifier.send, Notification.mark_as_sent,
    Notification.mark_as_failed, hsms, hpush]

/-- A customer whose phone has only 9 characters (too short for SMS) but
whose email and device id are valid. -/
def shortPhoneCustomer : Customer :=
  ⟨"Carlos Ruiz", "carlos.ruiz@email.com", "600123456", "DEVICE-XYZ-789",
   ["email", "sms", "push"]⟩

/-- An order for `shortPhoneCustomer`. -/
def shortPhoneOrder : Order := ⟨"ORD-002", shortPhoneCustomer, 75.00⟩

/-- Witness for claim C4, at a concrete order with a 9-character phone. -/
theorem claim_C4_witness :
    shortPhoneOrder.customer.phone.length ≤ 10
    ∧ shortPhoneOrder.customer.email ≠ ""
    ∧ strStartsWith shortPhoneOrder.customer.device_id "DEVICE-" = true
    ∧ ((NotificationManager.mk NotificationFactory.new []).send_notifications
          shortPhoneOrder ["email", "sms", "push"]).1.repository =
        [] ++
          [⟨"email", shortPhoneOrder.customer.email,
             MessageBuilder.apply_template shortPhoneOrder
               shortPhoneOrder.customer "email",
             shortPhoneOrder.order_id, "sent", none⟩,
           ⟨"sms", shortPhoneOrder.customer.phone,
             MessageBuilder.apply_template shortPhoneOrder
               shortPhoneOrder.customer "sms",
             shortPhoneOrder.order_id, "failed",
             some "Número de teléfono inválido"⟩,
           ⟨"push", shortPhoneOrder.customer.device_id,
             MessageBuilder.apply_template shortPhoneOrder
               shortPhoneOrder.customer "push",
             shortPhoneOrder.order_id, "sent", none⟩] :=
  ⟨by decide, by decide, by decide,
   claim_C4 [] shortPhoneOrder (by decide) (by decide) (by decide)⟩

/-- Claim C5: `SMSNotifier.send` succeeds (returns `True` and marks the
notification `sent`) exactly when the recipient string is strictly longer
than 10 characters, and otherwise returns `False` — never raising — and
marks the notification `failed` with the invalid-phone error string; the
boundary lengths 11 and 10 succeed and fail respectively. -/
theorem claim_C5 :
    (∀ n : Notification,
      (SMSNotifier.send n).1 = decide (10 < n.recipient.length)
      ∧ (SMSNotifier.send n).2 =
          (if 10 < n.recipient.length then n.mark_as_sent
           else n.mark_as_failed "Número de teléfono inválido"))
    ∧ (SMSNotifier.send ⟨"sms", "12345678901", "m", "o", "pending", none⟩).1
        = true
    ∧ (SMSNotifier.send ⟨"sms", "1234567890", "m", "o", "pending", none⟩).1
        = false := by
  refine ⟨fun n => ?_, by decide, by decide⟩
  rw [SMSNotifier.send, validate_phone_eq]
  by_cases h : 10 < n.recipient.length
  · simp [h]
  · simp [h]

/-- Claim C6: `PushNotifier.send` succeeds (returns `True` and marks the
notification `sent`) exactly when the recipient device identifier starts
with the literal prefix `DEVICE-`, and otherwise returns `False` and marks
the notification `failed` with the invalid-device error. -/
theorem claim_C6 (n : Notification) :
    (PushNotifier.send n).1 = strStartsWith n.recipient "DEVICE-"
    ∧ (PushNotifier.send n).2 =
        (if strStartsWith n.recipient "DEVICE-" then n.mark_as_sent
         else n.mark_as_failed "Device ID inválido") := by
  rw [PushNotifier.send, validate_device_eq]
  by_cases h : strStartsWith n.recipient "DEVICE-"
  · simp [h]
  · simp [h]

theorem formatFixed2_val_0 : formatFixed2 0 = "0.00" := by
  rw [formatFixed2]; norm_num; rfl

/-- Claim C7: for every sales payload the generated content reports as total
the sum of the amounts of the items in the `sales` list, rendered with
2-decimal rounding, and as transaction count the number of items; for the
empty sales list the reported total is `$0.00`. -/
theorem claim_C7 (now p : String) (items : List SalesItem) :
    (∃ r, SalesReportGenerator.generate_report now
        ⟨some p, some items, none, none, none⟩ = .ok r
      ∧ containsSegment r.content
          ("Total de ventas: $"
            ++ formatFixed2 ((items.map (fun item => item.amount)).sum)
            ++ "\n"
            ++ ("Número de transacciones: " ++ toString items.length ++ "\n")))
    ∧ (∃ r, SalesReportGenerator.generate_report now
        ⟨some p, some ([] : List SalesItem), none, none, none⟩ = .ok r
      ∧ containsSegment r.content "Total de ventas: $0.00\n") := by
  constructor
  · have hgen : SalesReportGenerator.generate_report now
        ⟨some p, some items, none, none, none⟩ =
        .ok ⟨eqLine ++ "           REPORTE DE VENTAS\n" ++ eqLine ++
          ("Fecha de generación: " ++ now ++ "\n\n") ++
          ("Total de ventas: $"
            ++ formatFixed2 ((items.map (fun item => item.amount)).sum)
            ++ "\n") ++
          ("Número de transacciones: " ++ toString items.length ++ "\n") ++
          ("Periodo: " ++ p ++ "\n\n") ++
          SalesReportGenerator.format_sales_detail items,
          "sales", "raw", [("period", .s p)]⟩ := rfl
    refine ⟨_, hgen, eqLine ++ "           REPORTE DE VENTAS\n" ++ eqLine ++
      ("Fecha de generación: " ++ now ++ "\n\n"),
      ("Periodo: " ++ p ++ "\n\n") ++
        SalesReportGenerator.format_sales_detail items, ?_⟩
    simp only [string_append_assoc]
  · have hgen : SalesReportGenerator.generate_report now
        ⟨some p, some ([] : List SalesItem), none, none, none⟩ =
        .ok ⟨eqLine ++ "           REPORTE DE VENTAS\n" ++ eqLine ++
          ("Fecha de generación: " ++ now ++ "\n\n") ++
          ("Total de ventas: $"
            ++ formatFixed2 ((([] : List SalesItem).map
                (fun item => item.amount)).sum) ++ "\n") ++
          ("Número de transacciones: "
            ++ toString ([] : List SalesItem).length ++ "\n") ++
          ("Periodo: " ++ p ++ "\n\n") ++
          SalesReportGenerator.format_sales_detail [],
          "sales", "raw", [("period", .s p)]⟩ := rfl
    have h0 : formatFixed2 ((([] : List SalesItem).map
        (fun item => item.amount)).sum) = "0.00" := formatFixed2_val_0
    have hmerge0 : "Total de ventas: $" ++ ("0.00" ++ "\n")
        = "Total de ventas: $0.00\n" := rfl
    refine ⟨_, hgen, eqLine ++ "           REPORTE DE VENTAS\n" ++ eqLine ++
      ("Fecha de generación: " ++ now ++ "\n\n"),
      ("Número de transacciones: "
        ++ toString ([] : List SalesItem).length ++ "\n") ++
        (("Periodo: " ++ p ++ "\n\n") ++
          SalesReportGenerator.format_sales_detail []), ?_⟩
    rw [h0, ← hmerge0]
    simp only [string_append_assoc]

/-- Claim C8: for every inventory payload the total item count stored in the
metadata under `total_items` equals the sum of the quantities of the items,
the content reports that same total, and the reported category count equals
the number of distinct category strings (compared case-sensitively). -/
theorem claim_C8 (now : String) (items : List InvItem) :
    ∃ r, InventoryReportGenerator.generate_report now
        ⟨none, none, some items, none, none⟩ = .ok r
      ∧ dictGet r.metadata "total_items"
          = some (.i ((items.map (fun item => item.quantity)).sum))
      ∧ containsSegment r.content
          ("Total de productos: "
            ++ toString ((items.map (fun item => item.quantity)).sum) ++ "\n"
            ++ ("Categorías: "
              ++ toString ((items.map InvItem.category).toFinset.card)
              ++ "\n\n")) := by
  have hgen : InventoryReportGenerator.generate_report now
      ⟨none, none, some items, none, none⟩ =
      .ok ⟨eqLine ++ "           REPORTE DE INVENTARIO\n" ++ eqLine ++
        ("Fecha de generación: " ++ now ++ "\n\n") ++
        ("Total de productos: "
          ++ toString ((items.map (fun item => item.quantity)).sum) ++ "\n") ++
        ("Categorías: "
          ++ toString (InventoryReportGenerator.group_by_category items).length
          ++ "\n\n") ++
        "Inventario actual:\n" ++ dashLine ++
        String.join (items.map (fun item =>
          "  • " ++ item.name ++ " (" ++ item.category ++ "): "
            ++ toString item.quantity ++ " unidades\n")),
        "inventory", "raw",
        [("total_items", .i ((items.map (fun item => item.quantity)).sum))]⟩ :=
    rfl
  refine ⟨_, hgen, rfl, eqLine ++ "           REPORTE DE INVENTARIO\n"
    ++ eqLine ++ ("Fecha de generación: " ++ now ++ "\n\n"),
    "Inventario actual:\n" ++ dashLine ++
      String.join (items.map (fun item =>
        "  • " ++ item.name ++ " (" ++ item.category ++ "): "
          ++ toString item.quantity ++ " unidades\n")), ?_⟩
  rw [group_by_category_length]
  simp only [string_append_assoc]

/-- Claim C9: for both registries, registering an implementation under a tag
and then resolving that tag returns exactly the registered implementation,
and registering a second implementation under the same tag overwrites the
first — the last registration wins for all subsequent lookups. -/
theorem claim_C9 :
    (∀ (f : ReportFactory) (tag : String) (g g2 : Generator),
      ((f.register_generator tag g).create_generator tag = .ok g)
      ∧ (ReportFactory.create_generator
          ((f.register_generator tag g).register_generator tag g2) tag
          = .ok g2))
    ∧ (∀ (nf : NotificationFactory) (tag : String) (n n2 : Notifier),
      ((nf.register_notifier tag n).create_notifier tag = .ok n)
      ∧ (NotificationFactory.create_notifier
          ((nf.register_notifier tag n).register_notifier tag n2) tag
          = .ok n2)) := by
  constructor
  · intro f tag g g2
    constructor
    · unfold ReportFactory.create_generator ReportFactory.register_generator
      rw [dictGet_dictSet]
    · unfold ReportFactory.create_generator ReportFactory.register_generator
      rw [dictGet_dictSet]
  · intro nf tag n n2
    constructor
    · unfold NotificationFactory.create_notifier
        NotificationFactory.register_notifier
      rw [dictGet_dictSet]
    · unfold NotificationFactory.create_notifier
        NotificationFactory.register_notifier
      rw [dictGet_dictSet]

/-- Claim C10: `ReportBuilder.build` and `MessageBuilder.build` raise the
missing-components `ValueError` whenever any configured component is falsy,
even if the corresponding setter was called (a set-but-empty data dict or
channel string counts as missing); in particular a `generate_report` call
with the empty dict `{}` as payload — and otherwise valid tags — is rejected
by `build` before any generation, formatting or delivery, and the history
store is unchanged. -/
theorem claim_C10 :
    (∀ (b : ReportBuilder) (now : String),
      (b.generatorC = none ∨ b.formatterC = none ∨ b.deliveryC = none
        ∨ b.dataC = none
        ∨ ∃ p, b.dataC = some p ∧ p.isEmptyDict = true) →
        b.build now =
          .error (.valueError "Faltan componentes para construir el reporte"))
    ∧ (∀ mb : MessageBuilder,
      (mb.orderC = none ∨ mb.customerC = none ∨ mb.channelC = none
        ∨ mb.channelC = some "") →
        mb.build =
          .error (.valueError "Faltan datos para construir el mensaje"))
    ∧ (∀ (sys : ReportSystem) (now rt of dm : String) (g : Generator)
        (fm : Formatter) (dl : Delivery),
        dictGet sys.factory.generators rt = some g →
        dictGet format_strategies of = some fm →
        dictGet delivery_strategies dm = some dl →
          (sys.generate_report now rt Payload.emptyDict of dm).1 =
            .error (.valueError "Faltan componentes para construir el reporte")
          ∧ ReportSystem.report_history
              (sys.generate_report now rt Payload.emptyDict of dm).2
              = sys.report_history) := by
  refine ⟨?_, ?_, ?_⟩
  · intro b now h
    obtain ⟨gC, fC, dC, dtC⟩ := b
    rcases h with h | h | h | h | ⟨p, hp, hpe⟩
    · simp only at h; subst h
      cases fC <;> cases dC <;> cases dtC <;> rfl
    · simp only at h; subst h
      cases gC <;> cases dC <;> cases dtC <;> rfl
    · simp only at h; subst h
      cases gC <;> cases fC <;> cases dtC <;> rfl
    · simp only at h; subst h
      cases gC <;> cases fC <;> cases dC <;> rfl
    · simp only at hp; subst hp
      cases gC with
      | none => rfl
      | some g =>
        cases fC with
        | none => rfl
        | some f =>
          cases dC with
          | none => rfl
          | some d => simp [ReportBuilder.build, hpe]
  · intro mb h
    obtain ⟨oC, cC, chC⟩ := mb
    rcases h with h | h | h | h
    · simp only at h; subst h
      cases cC <;> cases chC <;> rfl
    · simp only at h; subst h
      cases oC <;> cases chC <;> rfl
    · simp only at h; subst h
      cases oC <;> cases cC <;> rfl
    · simp only at h; subst h
      cases oC with
      | none => rfl
      | some o =>
        cases cC with
        | none => rfl
        | some c => simp [MessageBuilder.build]
  · intro sys now rt of dm g fm dl h1 h2 h3
    constructor
    · unfold ReportSystem.generate_report ReportFactory.create_generator
      rw [h1, h2, h3]
      rfl
    · unfold ReportSystem.generate_report ReportFactory.create_generator
      rw [h1, h2, h3]
      rfl

/-- Witness for claim C10: a report builder missing its formatter, a message
builder whose channel setter was called with the empty (falsy) string, and a
fresh system asked for a valid `sales`/`pdf`/`email` report with the empty
dict as payload. -/
theorem claim_C10_witness :
    ((ReportBuilder.mk (some .sales) none (some .email)
        (some demoSalesPayload)).build "T" =
      .error (.valueError "Faltan componentes para construir el reporte"))
    ∧ ((MessageBuilder.mk (some demoOrder) (some demoCustomer)
        (some "")).build =
      .error (.valueError "Faltan datos para construir el mensaje"))
    ∧ ((ReportSystem.new.generate_report "T" "sales" Payload.emptyDict
          "pdf" "email").1 =
        .error (.valueError "Faltan componentes para construir el reporte")
      ∧ (ReportSystem.new.generate_report "T" "sales" Payload.emptyDict
          "pdf" "email").2.report_history = ReportSystem.new.report_history) :=
  ⟨claim_C10.1 (ReportBuilder.mk (some .sales) none (some .email)
      (some demoSalesPayload)) "T" (Or.inr (Or.inl rfl)),
   claim_C10.2.1 (MessageBuilder.mk (some demoOrder) (some demoCustomer)
      (some "")) (Or.inr (Or.inr (Or.inr rfl))),
   claim_C10.2.2 ReportSystem.new "T" "sales" "pdf" "email"
      Generator.sales Formatter.pdf Delivery.email rfl rfl rfl⟩

/-- Claim C3 (amended): for every payload missing a required field, the
generator fails by raising the bare `KeyError` that the dict subscript on
the missing key produces — an unvalidated crash that propagates to the
caller — rather than a distinguishable `InvalidPayload` validation error;
no `Content` is produced. -/
theorem claim_C3_amended :
    (∀ (now : String) (data : Payload), data.sales = none →
      SalesReportGenerator.generate_report now data
        = .error (.keyError "sales"))
    ∧ (∀ (now : String) (data : Payload), data.items = none →
      InventoryReportGenerator.generate_report now data
        = .error (.keyError "items"))
    ∧ (∀ (now : String) (data : Payload), data.income = none →
      FinancialReportGenerator.generate_report now data
        = .error (.keyError "income"))
    ∧ (∀ (now : String) (data : Payload) (q : ℚ),
      data.income = some q → data.expenses = none →
      FinancialReportGenerator.generate_report now data
        = .error (.keyError "expenses")) := by
  refine ⟨?_, ?_, ?_, ?_⟩
  · intro now data h
    unfold SalesReportGenerator.generate_report
    rw [h]
    rfl
  · intro now data h
    unfold InventoryReportGenerator.generate_report
    rw [h]
    rfl
  · intro now data h
    unfold FinancialReportGenerator.generate_report
    rw [h]
    rfl
  · intro now data q h1 h2
    unfold FinancialReportGenerator.generate_report
    rw [h1, h2]
    rfl

/-- Witness for claim C3 (amended), at payloads each missing one required
field. -/
theorem claim_C3_witness :
    (SalesReportGenerator.generate_report "T"
        ⟨some "Enero 2024", none, none, none, none⟩
      = .error (.keyError "sales"))
    ∧ (InventoryReportGenerator.generate_report "T" Payload.emptyDict
      = .error (.keyError "items"))
    ∧ (FinancialReportGenerator.generate_report "T"
        ⟨none, none, none, none, some 32000⟩
      = .error (.keyError "income"))
    ∧ (FinancialReportGenerator.generate_report "T"
        ⟨none, none, none, some 50000, none⟩
      = .error (.keyError "expenses")) :=
  ⟨claim_C3_amended.1 "T" ⟨some "Enero 2024", none, none, none, none⟩ rfl,
   claim_C3_amended.2.1 "T" Payload.emptyDict rfl,
   claim_C3_amended.2.2.1 "T" ⟨none, none, none, none, some 32000⟩ rfl,
   claim_C3_amended.2.2.2 "T" ⟨none, none, none, some 50000, none⟩ 50000
     rfl rfl⟩
